import Mathlib

/-!
Verification development for the kirara-ai canonical message model and
adapter layer.

The Python sources embedded here:
* `src/kirara_ai/im/message.py` — the `MessageElement` family, the
  `MediaMessage` lazy media resolver, and the `IMMessage` envelope;
* `src/plugins/preset_llm_adapters/gemini_adapter.py` — the request body
  built by `GeminiAdapter.chat`;
* `src/plugins/im_telegram_adapter/adapter.py` — `TelegramAdapter.send_message`.

Python booleans-by-truthiness (`if url:`, `if self.data:`) are embedded via
explicit truthiness predicates on `Option` values: `None` and empty
strings/byte strings are falsy.  I/O (network fetch, file read, temp-file
creation, content sniffing, telegram bot calls) is embedded as explicit
world/oracle records passed to each operation, with counters recording how
many fetches/reads/temp files occurred, so "no duplicate fetch" claims are
statements about the counters.
-/

/-- Python truthiness of an optional string: `None` and `""` are falsy. -/
def truthyS : Option String → Bool
  | none => false
  | some s => s != ""

/-- Python truthiness of an optional byte string: `None` and `b""` are falsy.
Bytes are embedded as `List Nat` (each element intended `< 256`). -/
def truthyB : Option (List Nat) → Bool
  | none => false
  | some l => l != []

/-- Python `f"{x}"` rendering of an optional string: `None` prints as "None". -/
def pyStr : Option String → String
  | none => "None"
  | some s => s

/-- The characters Python `str.strip()` removes (ASCII whitespace; the
strings this development evaluates contain no further unicode whitespace). -/
def pyWhitespace (c : Char) : Bool :=
  c = ' ' || c = '\t' || c = '\n' || c = '\r' || c = '\x0b' || c = '\x0c'

/-- Python `str.strip()`: drop leading and trailing whitespace. -/
def pyStrip (s : String) : String :=
  String.mk ((s.data.dropWhile pyWhitespace).reverse.dropWhile pyWhitespace).reverse

/-- The standard base64 alphabet used by Python `base64.b64encode`. -/
def b64Alphabet : List Char :=
  "ABCDEFGHIJKLMNOPQRSTUVWXYZabcdefghijklmnopqrstuvwxyz0123456789+/".toList

/-- Sextet value of a base64 character. -/
def b64Index (c : Char) : Nat := b64Alphabet.indexOf c

/-- Base64 character of a sextet value. -/
def b64Char (n : Nat) : Char := b64Alphabet.getD n 'A'

/-- `base64.b64encode` on a byte list, producing the character list:
three bytes become four sextet characters, with `=` padding for a final
partial group exactly as in RFC 4648. -/
def b64encodeList : List Nat → List Char
  | [] => []
  | [a] => [b64Char (a / 4), b64Char (a % 4 * 16), '=', '=']
  | [a, b] => [b64Char (a / 4), b64Char (a % 4 * 16 + b / 16), b64Char (b % 16 * 4), '=']
  | a :: b :: c :: rest =>
      b64Char (a / 4) :: b64Char (a % 4 * 16 + b / 16) ::
      b64Char (b % 16 * 4 + c / 64) :: b64Char (c % 64) :: b64encodeList rest

/-- `base64.b64decode` on a character list (well-formed input: `=` padding
only in the final four-character group). -/
def b64decodeList : List Char → List Nat
  | [c1, c2, c3, c4] =>
      if c3 = '=' then [b64Index c1 * 4 + b64Index c2 / 16]
      else if c4 = '=' then
        [b64Index c1 * 4 + b64Index c2 / 16, b64Index c2 % 16 * 16 + b64Index c3 / 4]
      else
        [b64Index c1 * 4 + b64Index c2 / 16, b64Index c2 % 16 * 16 + b64Index c3 / 4,
         b64Index c3 % 4 * 64 + b64Index c4]
  | c1 :: c2 :: c3 :: c4 :: rest =>
      (b64Index c1 * 4 + b64Index c2 / 16) :: (b64Index c2 % 16 * 16 + b64Index c3 / 4) ::
      (b64Index c3 % 4 * 64 + b64Index c4) :: b64decodeList rest
  | _ => []

/-- `base64.b64encode(data).decode()`: bytes to base64 string. -/
def b64encode (l : List Nat) : String := String.mk (b64encodeList l)

/-- `base64.b64decode`: base64 string back to bytes. -/
def b64decode (s : String) : List Nat := b64decodeList s.data

/-- The mutable attribute state of a `MediaMessage` instance
(`url`, `path`, `data`, `format`, `resource_type`), from
`src/kirara_ai/im/message.py`. -/
structure MediaState where
  url : Option String
  path : Option String
  data : Option (List Nat)
  format : Option String
  resource_type : String
deriving DecidableEq, Repr

/-- The external world a `MediaMessage` touches: network fetch by URL, file
read by path, `magic.from_buffer(..., mime=True)` content sniffing, and the
names `tempfile.NamedTemporaryFile` hands out (the n-th temp file created
gets name `tempName n`).  All are modelled as total oracles. -/
structure World where
  fetch : String → List Nat
  readFile : String → List Nat
  sniff : List Nat → String
  tempName : Nat → String

/-- Counters of the I/O a resolution has performed: network fetches, file
reads, and temp files created. -/
structure Counters where
  fetches : Nat
  reads : Nat
  temps : Nat
deriving DecidableEq, Repr

/-- Result of a `MediaMessage` method: the returned value or raised
`ValueError` message, the instance state afterwards, and the I/O counters. -/
structure MRes (α : Type) where
  result : Except String α
  state : MediaState
  counts : Counters

/-- `MediaMessage.__init__(url, path, data, format)`
(message.py lines 42-63): sets `resource_type = "media"` as an instance
attribute, then branches on Python truthiness of `url`, `path`, then
`data and format`; `_from_url`/`_from_path`/`_from_data` null out the other
representations; otherwise raises `ValueError`. -/
def MediaMessage.init (url path : Option String) (data : Option (List Nat))
    (format : Option String) : Except String MediaState :=
  if truthyS url then
    .ok ⟨url, none, none, format, "media"⟩
  else if truthyS path then
    .ok ⟨none, path, none, format, "media"⟩
  else if truthyB data && truthyS format then
    .ok ⟨none, none, data, format, "media"⟩
  else
    .error "Must provide either url, path, or data + format."

/-- `MediaMessage._detect_format` (message.py lines 78-85): a no-op when
`self.format` is truthy; otherwise sniffs the mime type of `self.data` and
stores `format = mime.split('/')[-1]`, `resource_type = mime.split('/')[0]`. -/
def detectFormat (w : World) (s : MediaState) : MediaState :=
  if truthyS s.format then s
  else
    { s with format := some (((w.sniff (s.data.getD [])).splitOn "/").getLastD ""),
             resource_type := ((w.sniff (s.data.getD [])).splitOn "/").headD "" }

/-- `MediaMessage._load_data_from_path` (message.py lines 65-69): read the
file at `self.path` into `self.data`, then `_detect_format`. -/
def loadDataFromPath (w : World) (s : MediaState) (c : Counters) : MediaState × Counters :=
  (detectFormat w { s with data := some (w.readFile (s.path.getD "")) },
   { c with reads := c.reads + 1 })

/-- `MediaMessage._load_data_from_url` (message.py lines 71-76): download
`self.url` into `self.data`, then `_detect_format`. -/
def loadDataFromUrl (w : World) (s : MediaState) (c : Counters) : MediaState × Counters :=
  (detectFormat w { s with data := some (w.fetch (s.url.getD "")) },
   { c with fetches := c.fetches + 1 })

/-- The `data:{resource_type}/{format};base64,{b64encode(data)}` string
built by `MediaMessage.get_url` line 98. -/
def dataUrl (s : MediaState) : String :=
  "data:" ++ s.resource_type ++ "/" ++ pyStr s.format ++ ";base64," ++
    b64encode (s.data.getD [])

/-- `MediaMessage.get_url` (message.py lines 87-98): return `self.url` if
truthy; else if `self.data` falsy, load from `self.path` when truthy or raise
`ValueError("No available media source")`; finally synthesize a `data:` URL
from the bytes. -/
def get_url (w : World) (s : MediaState) (c : Counters) : MRes String :=
  if truthyS s.url then ⟨.ok (s.url.getD ""), s, c⟩
  else if truthyB s.data then ⟨.ok (dataUrl s), s, c⟩
  else if truthyS s.path then
    ⟨.ok (dataUrl (loadDataFromPath w s c).1), (loadDataFromPath w s c).1,
     (loadDataFromPath w s c).2⟩
  else ⟨.error "No available media source", s, c⟩

/-- `MediaMessage.get_path` (message.py lines 100-114): return `self.path`
if truthy; else if `self.data` falsy, load from `self.url` when truthy or
raise; finally write the bytes to a fresh `NamedTemporaryFile`, record its
name as `self.path` and return it. -/
def get_path (w : World) (s : MediaState) (c : Counters) : MRes String :=
  if truthyS s.path then ⟨.ok (s.path.getD ""), s, c⟩
  else if truthyB s.data then
    ⟨.ok (w.tempName c.temps), { s with path := some (w.tempName c.temps) },
     { c with temps := c.temps + 1 }⟩
  else if truthyS s.url then
    ⟨.ok (w.tempName (loadDataFromUrl w s c).2.temps),
     { (loadDataFromUrl w s c).1 with path := some (w.tempName (loadDataFromUrl w s c).2.temps) },
     { (loadDataFromUrl w s c).2 with temps := (loadDataFromUrl w s c).2.temps + 1 }⟩
  else ⟨.error "No available media source", s, c⟩

/-- `MediaMessage.get_data` (message.py lines 116-128): return `self.data`
if truthy; else load from `self.path`, else from `self.url`, else raise. -/
def get_data (w : World) (s : MediaState) (c : Counters) : MRes (List Nat) :=
  if truthyB s.data then ⟨.ok (s.data.getD []), s, c⟩
  else if truthyS s.path then
    ⟨.ok ((loadDataFromPath w s c).1.data.getD []), (loadDataFromPath w s c).1,
     (loadDataFromPath w s c).2⟩
  else if truthyS s.url then
    ⟨.ok ((loadDataFromUrl w s c).1.data.getD []), (loadDataFromUrl w s c).1,
     (loadDataFromUrl w s c).2⟩
  else ⟨.error "No available media source", s, c⟩

/-- The stable field map returned by the media variants' `to_dict`. -/
structure MediaDict where
  type : String
  url : Option String
  path : Option String
  data : Option String
  format : Option String
deriving DecidableEq, Repr

/-- `MediaMessage.to_dict` (message.py lines 151-158): purely serializes the
currently-known fields; `data` is base64-encoded only when truthy, else
`None`. -/
def mediaToDict (s : MediaState) : MediaDict :=
  ⟨s.resource_type, s.url, s.path,
   if truthyB s.data then some (b64encode (s.data.getD [])) else none, s.format⟩

/-- `ImageMessage.to_dict` (message.py lines 182-189). -/
def imageToDict (s : MediaState) : MediaDict :=
  ⟨"image", s.url, s.path,
   if truthyB s.data then some (b64encode (s.data.getD [])) else none, s.format⟩

/-- `VoiceMessage.to_dict` (message.py lines 165-172). -/
def voiceToDict (s : MediaState) : MediaDict :=
  ⟨"voice", s.url, s.path,
   if truthyB s.data then some (b64encode (s.data.getD [])) else none, s.format⟩

/-- `FileElement.to_dict` (message.py lines 248-255). -/
def fileToDict (s : MediaState) : MediaDict :=
  ⟨"file", s.url, s.path,
   if truthyB s.data then some (b64encode (s.data.getD [])) else none, s.format⟩

/-- `VideoElement.to_dict` (message.py lines 301-302) evaluates `self.file`.
No `file` attribute is ever assigned by `MediaMessage.__init__` (lines
42-63) or anywhere in `VideoElement`, and no class attribute `file` exists,
so Python attribute lookup raises `AttributeError` unconditionally; the
embedding therefore returns that error for every instance state. -/
def videoToDict (_ : MediaState) : Except String MediaDict :=
  .error "AttributeError: VideoElement object has no attribute file"

/-- `ChatType` from `framework/im/sender.py`.
Modelled from the spec: the sender module is not under `src/`; §3 gives the
chat-type enum as direct (C2C) versus group. -/
inductive ChatType
  | C2C
  | GROUP
deriving DecidableEq, Repr

/-- `ChatSender` from `framework/im/sender.py`.
Modelled from the spec: §3 ChatSender carries `chat_type`, `user_id`,
`group_id` (present only for group chats) and `display_name`. -/
structure ChatSender where
  chat_type : ChatType
  user_id : String
  group_id : Option String
  display_name : Option String
deriving DecidableEq, Repr

/-- The closed `MessageElement` family of `src/kirara_ai/im/message.py` as a
sum type: text, the four media variants (each wrapping the media state),
at/mention/reply/json/face. -/
inductive MessageElement
  | text (t : String)
  | voice (m : MediaState)
  | image (m : MediaState)
  | atel (user_id : String) (nickname : String)
  | mention (target : ChatSender)
  | reply (message_id : String)
  | file (m : MediaState)
  | json (d : String)
  | face (face_id : String)
  | video (m : MediaState)
deriving DecidableEq, Repr

/-- `to_plain` of each variant (message.py): the text itself for
`TextMessage`, fixed placeholder tags for media/json, and formatted tags for
at/mention/reply/face/file. -/
def toPlain : MessageElement → String
  | .text t => t
  | .voice _ => "[VoiceMessage]"
  | .image _ => "[ImageMessage]"
  | .atel uid nick => "@" ++ (if nick != "" then nick else uid)
  | .mention t => "@" ++ (if truthyS t.display_name then t.display_name.getD "" else t.user_id)
  | .reply mid => "[Reply:" ++ mid ++ "]"
  | .file m =>
      "[File:" ++
        (if truthyS m.path then m.path.getD ""
         else if truthyS m.url then m.url.getD "" else "unnamed") ++ "]"
  | .json _ => "[JSON Message]"
  | .face fid => "[Face:" ++ fid ++ "]"
  | .video _ => "[Video Message]"

/-- `IMMessage` (message.py lines 312-369): sender, ordered element list,
optional opaque raw payload (kept abstract as an optional string blob). -/
structure IMMessage where
  sender : ChatSender
  message_elements : List MessageElement
  raw_message : Option String
deriving DecidableEq

/-- `IMMessage.content` (message.py lines 333-341): concatenate each
element's `to_plain()`, appending `"\n"` after every `TextMessage` (and only
after those), then `strip()` the result. -/
def IMMessage.content (msg : IMMessage) : String :=
  pyStrip (msg.message_elements.foldl
    (fun acc e => acc ++ toPlain e ++ (match e with | .text _ => "\n" | _ => "")) "")

/-- `IMMessage.images` (message.py lines 343-350): the image elements in
order. -/
def IMMessage.images (msg : IMMessage) : List MessageElement :=
  msg.message_elements.filter (fun e => match e with | .image _ => true | _ => false)

/-- One representation supplied at construction and the other two absent,
in the Python-truthiness sense (the claim's "constructed with exactly one
representation"; bytes count only together with a truthy format). -/
def exactlyOneRep (url path : Option String) (data : Option (List Nat))
    (format : Option String) : Prop :=
  (truthyS url = true ∧ truthyS path = false ∧ truthyB data = false)
  ∨ (truthyS url = false ∧ truthyS path = true ∧ truthyB data = false)
  ∨ (truthyS url = false ∧ truthyS path = false ∧ truthyB data = true ∧ truthyS format = true)

/-- The outcome of the three-call resolution sequence `get_data()`, then
`get_path()`, then `get_url()`, starting from zeroed I/O counters. -/
structure SeqOut where
  r1 : Except String (List Nat)
  r2 : Except String String
  r3 : Except String String
  state : MediaState
  counts : Counters

/-- Run `get_data`; then `get_path`; then `get_url` on the resulting states,
collecting all three results and the final state and counters. -/
def runSeq (w : World) (s0 : MediaState) : SeqOut :=
  ⟨(get_data w s0 ⟨0, 0, 0⟩).result,
   (get_path w (get_data w s0 ⟨0, 0, 0⟩).state (get_data w s0 ⟨0, 0, 0⟩).counts).result,
   (get_url w (get_path w (get_data w s0 ⟨0, 0, 0⟩).state (get_data w s0 ⟨0, 0, 0⟩).counts).state
      (get_path w (get_data w s0 ⟨0, 0, 0⟩).state (get_data w s0 ⟨0, 0, 0⟩).counts).counts).result,
   (get_url w (get_path w (get_data w s0 ⟨0, 0, 0⟩).state (get_data w s0 ⟨0, 0, 0⟩).counts).state
      (get_path w (get_data w s0 ⟨0, 0, 0⟩).state (get_data w s0 ⟨0, 0, 0⟩).counts).counts).state,
   (get_url w (get_path w (get_data w s0 ⟨0, 0, 0⟩).state (get_data w s0 ⟨0, 0, 0⟩).counts).state
      (get_path w (get_data w s0 ⟨0, 0, 0⟩).state (get_data w s0 ⟨0, 0, 0⟩).counts).counts).counts⟩

/-- One public resolution call on a media resource, tagged with the world it
runs against (each call may hit a different network/filesystem snapshot). -/
inductive MediaOp
  | opUrl (w : World)
  | opPath (w : World)
  | opData (w : World)

/-- State-and-counter effect of one resolution call. -/
def applyOp : MediaOp → MediaState → Counters → MediaState × Counters
  | .opUrl w, s, c => ((get_url w s c).state, (get_url w s c).counts)
  | .opPath w, s, c => ((get_path w s c).state, (get_path w s c).counts)
  | .opData w, s, c => ((get_data w s c).state, (get_data w s c).counts)

/-- Run a sequence of resolution calls (a media resource's lifetime after
construction: the only code that mutates it). -/
def runOps : List MediaOp → MediaState → Counters → MediaState × Counters
  | [], s, c => (s, c)
  | o :: rest, s, c => runOps rest (applyOp o s c).1 (applyOp o s c).2

/-- JSON values, for the wire body `requests.post(..., json=data)`
serializes: Python `None` becomes `null`. -/
inductive JVal
  | jnull
  | jstr (s : String)
  | jint (n : Int)
  | jarr (xs : List JVal)
  | jobj (fields : List (String × JVal))

/-- Python `v is None` on an embedded JSON value. -/
def JVal.isNone : JVal → Bool
  | .jnull => true
  | _ => false

/-- Field lookup in a JSON object (first match, as in a Python dict). -/
def jlookup (j : JVal) (k : String) : Option JVal :=
  match j with
  | .jobj fields => (fields.find? (fun kv => kv.1 == k)).map (fun kv => kv.2)
  | _ => none

/-- One role-tagged chat turn of the canonical request.
Modelled from the spec: `framework/llm/format/request.py` is not under
`src/`; §3 gives the request as ordered role-tagged text turns. -/
structure LLMChatMessage where
  role : String
  content : String

/-- The canonical chat request consumed by `GeminiAdapter.chat`.
Modelled from the spec: `framework/llm/format/request.py` is not under
`src/`; §3/§6 give generation parameters temperature, top-p, max tokens,
stop sequences and the target model id, each optional except the model.
(Float-valued parameters are carried as integers: the adapter only passes
them through, no arithmetic is performed on them.) -/
structure LLMChatRequest where
  messages : List LLMChatMessage
  model : String
  temperature : Option Int
  top_p : Option Int
  max_tokens : Option Int
  stop : Option (List String)

/-- An optional scalar serialized into JSON: Python `None` is `null`. -/
def optJInt : Option Int → JVal
  | none => .jnull
  | some n => .jint n

/-- An optional string list serialized into JSON. -/
def optJStrArr : Option (List String) → JVal
  | none => .jnull
  | some l => .jarr (l.map .jstr)

/-- The `data` dict built by `GeminiAdapter.chat`
(gemini_adapter.py lines 24-40): `contents`, `generationConfig` (with
`temperature`, `topP`, `topK: 40`, `maxOutputTokens`, `stopSequences`) and
`safetySettings`, followed by the comprehension
`{k: v for k, v in data.items() if v is not None}`, which inspects only the
top-level values. -/
def geminiRequestData (req : LLMChatRequest) : JVal :=
  .jobj (List.filter (fun kv => !kv.2.isNone)
    [("contents", .jarr (req.messages.map (fun m =>
        .jobj [("role", .jstr m.role), ("parts", .jarr [.jobj [("text", .jstr m.content)]])]))),
     ("generationConfig", .jobj
        [("temperature", optJInt req.temperature),
         ("topP", optJInt req.top_p),
         ("topK", .jint 40),
         ("maxOutputTokens", optJInt req.max_tokens),
         ("stopSequences", optJStrArr req.stop)]),
     ("safetySettings", .jarr [])])

/-- A telegram bot API call made by `TelegramAdapter.send_message`. -/
inductive BotCall
  | chatAction (chat_id : String) (action : String)
  | sendText (chat_id : String) (text : String)
  | sendPhoto (chat_id : String) (photo : Option String)
  | sendVoice (chat_id : String) (voice : Option String)
deriving DecidableEq, Repr

/-- The telegram platform as seen by `send_message`: whether each bot call
succeeds (a `false` means the underlying API call raises), and the
`telegramify_markdown.markdownify` text transformation.  The
typing-simulation `asyncio.sleep` pauses affect timing only and are not
modelled. -/
structure TgWorld where
  callOk : BotCall → Bool
  markdownify : String → String

/-- Perform a list of bot calls in order, stopping at the first failure;
returns the calls attempted and whether all succeeded. -/
def runCalls (w : TgWorld) : List BotCall → List BotCall × Bool
  | [] => ([], true)
  | c :: rest =>
      if w.callOk c then
        ((runCalls w rest).1.cons c, (runCalls w rest).2)
      else ([c], false)

/-- The bot calls one element triggers inside the `send_message` loop
(adapter.py lines 122-138): text sends a typing action then the
markdownified text; images and voices send an upload action then the
media's `url` attribute; every other variant matches no branch and sends
nothing. -/
def elementCalls (w : TgWorld) (cid : String) : MessageElement → List BotCall
  | .text t => [.chatAction cid "typing", .sendText cid (w.markdownify t)]
  | .image m => [.chatAction cid "upload_photo", .sendPhoto cid m.url]
  | .voice m => [.chatAction cid "upload_voice", .sendVoice cid m.url]
  | _ => []

/-- `send_message`'s chat-id resolution (adapter.py lines 115-120): C2C
uses `user_id`, GROUP uses `group_id`; the trailing `else: raise` is
unreachable with the two-valued chat-type enum. -/
def resolveChatId (recipient : ChatSender) : String :=
  match recipient.chat_type with
  | .C2C => recipient.user_id
  | .GROUP => recipient.group_id.getD ""

/-- The element loop of `TelegramAdapter.send_message` (adapter.py lines
122-138): elements are processed in order and an uncaught exception from a
bot call propagates, aborting the loop.  Returns the bot calls attempted
and whether the whole send completed without raising. -/
def sendLoop (w : TgWorld) (cid : String) : List MessageElement → List BotCall × Bool
  | [] => ([], true)
  | e :: rest =>
      if (runCalls w (elementCalls w cid e)).2 then
        ((runCalls w (elementCalls w cid e)).1 ++ (sendLoop w cid rest).1,
         (sendLoop w cid rest).2)
      else ((runCalls w (elementCalls w cid e)).1, false)

/-- `TelegramAdapter.send_message` (adapter.py lines 109-138). -/
def send_message (w : TgWorld) (msg : IMMessage) (recipient : ChatSender) :
    List BotCall × Bool :=
  sendLoop w (resolveChatId recipient) msg.message_elements

/-- A concrete world for witnesses: every URL serves the byte `7`, every
file holds the byte `8`, sniffing reports `image/png`, temp files get
nonempty names. -/
def w0 : World :=
  ⟨fun _ => [7], fun _ => [8], fun _ => "image/png", fun _ => "/tmp/mediatmp"⟩

/-- A concrete media state as produced by constructing from bytes `[1]`
with format `"png"`. -/
def sBytes : MediaState := ⟨none, none, some [1], some "png", "media"⟩

/-- A concrete media state as produced by constructing from the URL
`"http://example/i.png"`. -/
def sUrl : MediaState := ⟨some "http://example/i.png", none, none, none, "media"⟩

/-- A concrete direct-chat sender. -/
def sender0 : ChatSender := ⟨.C2C, "c1", none, none⟩

/-- A concrete telegram world in which photo uploads fail and every other
call succeeds; markdownify is the identity. -/
def tgw0 : TgWorld :=
  ⟨fun c => match c with | .sendPhoto _ _ => false | _ => true, fun s => s⟩

/-- A canonical request with every optional generation parameter absent. -/
def reqNoStop : LLMChatRequest := ⟨[⟨"user", "hi"⟩], "gemini-1.5-flash", none, none, none, none⟩

/-- The same request with a populated stop list. -/
def reqWithStop : LLMChatRequest :=
  ⟨[⟨"user", "hi"⟩], "gemini-1.5-flash", none, none, none, some ["END"]⟩

/-- A concrete media state as produced by constructing from the local path
`"/tmp/x.png"`. -/
def sPath : MediaState := ⟨none, some "/tmp/x.png", none, none, "media"⟩

/-- A media state whose cached bytes are the empty byte string. -/
def sEmptyBytes : MediaState := ⟨none, some "/tmp/empty.bin", some [], none, "media"⟩

/-- A three-element message whose middle element is an image: the telegram
world `tgw0` fails its photo upload. -/
def msgFail : IMMessage := ⟨sender0, [.text "a", .image sUrl, .text "b"], none⟩

/-! ## Helper lemmas -/

theorem truthyS_some_of_ne {s : String} (h : s ≠ "") : truthyS (some s) = true := by
  simpa [truthyS] using h

theorem truthyB_some_of_ne {l : List Nat} (h : l ≠ []) : truthyB (some l) = true := by
  simpa [truthyB] using h

theorem truthyS_none : truthyS none = false := rfl

theorem truthyB_none : truthyB none = false := rfl

theorem detectFormat_url (w : World) (s : MediaState) : (detectFormat w s).url = s.url := by
  unfold detectFormat; split <;> rfl

theorem detectFormat_path (w : World) (s : MediaState) : (detectFormat w s).path = s.path := by
  unfold detectFormat; split <;> rfl

theorem detectFormat_data (w : World) (s : MediaState) : (detectFormat w s).data = s.data := by
  unfold detectFormat; split <;> rfl

theorem detectFormat_of_truthy (w : World) (s : MediaState)
    (h : truthyS s.format = true) : detectFormat w s = s := by
  simp [detectFormat, h]

theorem b64Index_b64Char : ∀ n, n < 64 → b64Index (b64Char n) = n := by decide

theorem b64Char_ne_pad : ∀ n, n < 64 → b64Char n ≠ '=' := by decide

theorem b64encodeList_ne_nil : ∀ l : List Nat, l ≠ [] → b64encodeList l ≠ [] := by
  intro l h
  rcases l with _ | ⟨a, _ | ⟨b, _ | ⟨c, rest⟩⟩⟩ <;> simp_all [b64encodeList]

theorem b64_roundtrip : ∀ l : List Nat, (∀ b ∈ l, b < 256) →
    b64decodeList (b64encodeList l) = l
  | [], _ => rfl
  | [a], h => by
      have ha : a < 256 := h a (by simp)
      simp only [b64encodeList, b64decodeList]
      rw [if_pos trivial]
      rw [b64Index_b64Char _ (by omega), b64Index_b64Char _ (by omega)]
      simp only [List.cons.injEq, and_true]
      omega
  | [a, b], h => by
      have ha : a < 256 := h a (by simp)
      have hb : b < 256 := h b (by simp)
      simp only [b64encodeList, b64decodeList]
      rw [if_neg (b64Char_ne_pad _ (by omega)), if_pos trivial]
      rw [b64Index_b64Char _ (by omega), b64Index_b64Char _ (by omega),
          b64Index_b64Char _ (by omega)]
      simp only [List.cons.injEq, and_true]
      omega
  | a :: b :: c :: rest, h => by
      have ha : a < 256 := h a (by simp)
      have hb : b < 256 := h b (by simp)
      have hc : c < 256 := h c (by simp)
      have ih := b64_roundtrip rest (fun x hx => h x (by simp [hx]))
      rcases hrest : rest with _ | ⟨r, rs⟩
      · simp only [b64encodeList, b64decodeList]
        rw [if_neg (b64Char_ne_pad _ (by omega)), if_neg (b64Char_ne_pad _ (by omega))]
        rw [b64Index_b64Char _ (by omega), b64Index_b64Char _ (by omega),
            b64Index_b64Char _ (by omega), b64Index_b64Char _ (by omega)]
        simp only [List.cons.injEq, and_true]
        omega
      · have hne : b64encodeList (r :: rs) ≠ [] := b64encodeList_ne_nil _ (by simp)
        rcases he : b64encodeList (r :: rs) with _ | ⟨t, ts⟩
        · exact absurd he hne
        · rw [hrest] at ih
          simp only [b64encodeList, he]
          simp only [b64decodeList]
          rw [b64Index_b64Char _ (by omega), b64Index_b64Char _ (by omega),
              b64Index_b64Char _ (by omega), b64Index_b64Char _ (by omega)]
          rw [← he, ih]
          simp only [List.cons.injEq, eq_self_iff_true, and_true]
          omega

/-! ## Claim theorems -/

/-- C1 counterexample: constructing with both a URL and a local path (two
representations) succeeds — the constructor keeps the URL and nulls the
path — refuting "construction fails when two-or-more representations are
supplied". -/
theorem c1_two_reps_succeed :
    MediaMessage.init (some "http://e/a.png") (some "/tmp/a.png") none none =
      .ok ⟨some "http://e/a.png", none, none, none, "media"⟩ := rfl

/-- C1 (amended): `MediaMessage.__init__` fails exactly when no
representation is effectively supplied — url and path absent/empty and not
(nonempty bytes together with nonempty format); with several supplied it
succeeds, keeping the first by precedence url > path > bytes. -/
theorem c1_construction_failure_iff (url path : Option String)
    (data : Option (List Nat)) (format : Option String) :
    (∃ e, MediaMessage.init url path data format = .error e) ↔
      (truthyS url = false ∧ truthyS path = false ∧
        (truthyB data && truthyS format) = false) := by
  unfold MediaMessage.init
  cases hu : truthyS url <;> cases hp : truthyS path <;>
    cases hd : truthyB data && truthyS format <;> simp [hu, hp, hd]

/-- C3 counterexample: a resource constructed from bytes + format (no
remote reference) does not fail on `get_url`: it synthesizes a base64
`data:` URL. -/
theorem c3_bytes_get_url_succeeds :
    (get_url w0 sBytes ⟨0, 0, 0⟩).result = .ok "data:media/png;base64,AQ==" := rfl

/-- C3 (amended): for a resource holding no remote reference, `get_url`
never fails — constructed from a path it reads the file and returns a
`data:` URL of the loaded state; constructed from bytes + format it returns
the `data:` URL of the current state. -/
theorem c3_get_url_synthesizes (w : World) (c : Counters) :
    (∀ p fmt s, MediaMessage.init none (some p) none fmt = .ok s →
      (get_url w s c).result = .ok (dataUrl (loadDataFromPath w s c).1))
    ∧ (∀ d f s, MediaMessage.init none none (some d) (some f) = .ok s →
      (get_url w s c).result = .ok (dataUrl s)) := by
  constructor
  · intro p fmt s h
    cases hp : truthyS (some p) <;>
      simp [MediaMessage.init, truthyS_none, truthyB_none, hp] at h
    subst h
    simp [get_url, truthyS_none, truthyB_none, hp]
  · intro d f s h
    cases hd : truthyB (some d) && truthyS (some f) <;>
      simp [MediaMessage.init, truthyS_none, hd] at h
    subst h
    simp only [Bool.and_eq_true] at hd
    simp [get_url, truthyS_none, hd.1]

/-- C3 witness: the amended statement at a concrete path-constructed
resource and world. -/
theorem c3_get_url_synthesizes_witness :
    (get_url w0 sPath ⟨0, 0, 0⟩).result =
      .ok (dataUrl (loadDataFromPath w0 sPath ⟨0, 0, 0⟩).1) :=
  (c3_get_url_synthesizes w0 ⟨0, 0, 0⟩).1 "/tmp/x.png" none sPath rfl

/-- C4 counterexample: for `[Text "a", Image(...), Text "b"]` the plain
content is "a\n[ImageMessage]b", not the claimed "a\n[Image]b". -/
theorem c4_content_not_image_tag :
    IMMessage.content ⟨sender0, [.text "a", .image sUrl, .text "b"], none⟩ ≠
      "a\n[Image]b" := by decide

/-- C4 (amended): for every image resource, sender and raw payload,
`IMMessage.content` of `[Text "a", Image(...), Text "b"]` is
"a\n[ImageMessage]b": text elements are followed by a line break, the image
contributes its plain-text tag `[ImageMessage]`, order is preserved, and
the result is stripped. -/
theorem c4_content_join (m : MediaState) (sender : ChatSender) (raw : Option String) :
    IMMessage.content ⟨sender, [.text "a", .image m, .text "b"], raw⟩ =
      "a\n[ImageMessage]b" := rfl

/-- C5 counterexample: a `VideoElement` is a media element, and for a
URL-constructed one its bytes are not materialized, yet `to_dict` does not
serialize `data` as absent — it raises `AttributeError` — so the claim's
universal statement over every media element fails at this input. -/
theorem c5_video_unresolved_raises :
    truthyB sUrl.data = false
    ∧ videoToDict sUrl =
        .error "AttributeError: VideoElement object has no attribute file" := ⟨rfl, rfl⟩

/-- C5 (amended): for the media variants whose `to_dict` returns
(the `MediaMessage` base and the Image/Voice/File variants — `VideoElement`
is excluded, its `to_dict` raises unconditionally, see C8), `to_dict`
serializes `data` as absent whenever bytes are not materialized (the
projection is a pure function of the instance state — it takes no `World`,
so it can trigger no fetch or read); and for an `ImageMessage` built from
raw bytes + format, the `data` field is the base64 payload, which decodes
back to exactly the original bytes. -/
theorem c5_to_dict_data_field :
    (∀ s, truthyB s.data = false →
      (mediaToDict s).data = none ∧ (imageToDict s).data = none
        ∧ (voiceToDict s).data = none ∧ (fileToDict s).data = none)
    ∧ (∀ d f s, (∀ b ∈ d, b < 256) →
        MediaMessage.init none none (some d) (some f) = .ok s →
        (imageToDict s).data = some (b64encode d) ∧ b64decode (b64encode d) = d) := by
  constructor
  · intro s h
    simp [mediaToDict, imageToDict, voiceToDict, fileToDict, h]
  · intro d f s hb h
    cases hd : truthyB (some d) && truthyS (some f) <;>
      simp [MediaMessage.init, truthyS_none, hd] at h
    subst h
    simp only [Bool.and_eq_true] at hd
    refine ⟨by simp [imageToDict, hd.1], ?_⟩
    show b64decodeList (String.mk (b64encodeList d)).data = d
    exact b64_roundtrip d hb

/-- C5 witness: the second part at bytes `[1]` with format "png". -/
theorem c5_to_dict_data_field_witness :
    (imageToDict sBytes).data = some (b64encode [1]) ∧ b64decode (b64encode [1]) = [1] :=
  c5_to_dict_data_field.2 [1] "png" sBytes (by decide) rfl

/-- C6: with `stop=None`, the wire body built by `GeminiAdapter.chat` still
contains a `stopSequences` field, serialized as `null`, inside
`generationConfig` (the `Remove None fields` comprehension only filters
top-level keys, whose values are never `None`); a populated stop list
passes through unchanged. -/
theorem c6_stop_null_retained :
    ((jlookup (geminiRequestData reqNoStop) "generationConfig").bind
        (fun g => jlookup g "stopSequences") = some JVal.jnull)
    ∧ ((jlookup (geminiRequestData reqWithStop) "generationConfig").bind
        (fun g => jlookup g "stopSequences") = some (JVal.jarr [JVal.jstr "END"])) :=
  ⟨rfl, rfl⟩

/-- C8: `VideoElement.to_dict` raises for every instance state: it reads
`self.file`, an attribute that no constructor or class body ever assigns,
so Python attribute lookup fails with `AttributeError` instead of returning
the stable field map. -/
theorem c8_video_to_dict_raises (s : MediaState) :
    videoToDict s = .error "AttributeError: VideoElement object has no attribute file" := rfl

theorem applyOp_preserves (o : MediaOp) (s : MediaState) (c : Counters)
    (hf : truthyS s.format = true) :
    (applyOp o s c).1.resource_type = s.resource_type
      ∧ truthyS (applyOp o s c).1.format = true := by
  have hdet : ∀ (w : World) (d : Option (List Nat)),
      detectFormat w { s with data := d } = { s with data := d } :=
    fun w d => detectFormat_of_truthy w _ hf
  cases o <;>
    simp only [applyOp, get_url, get_path, get_data, loadDataFromPath, loadDataFromUrl, hdet] <;>
    split_ifs <;> simp_all

theorem runOps_preserves (ops : List MediaOp) (s : MediaState) (c : Counters)
    (hf : truthyS s.format = true) :
    (runOps ops s c).1.resource_type = s.resource_type := by
  induction ops generalizing s c with
  | nil => rfl
  | cons o rest ih =>
      obtain ⟨h1, h2⟩ := applyOp_preserves o s c hf
      simpa only [runOps] using (ih _ _ h2).trans h1

/-- C9: every constructed instance has `resource_type = "media"` (the
`__init__` instance assignment shadows the subclass class attribute); when
`format` was supplied (truthy) every later resolution call preserves it
(format detection, the only writer, is skipped), so it stays "media" for
the whole lifetime; and the `data:` URL synthesized from bytes carries
top-level type "media". -/
theorem c9_resource_type_stays_media :
    (∀ url path data format s, MediaMessage.init url path data format = .ok s →
        s.resource_type = "media")
    ∧ (∀ ops s c, truthyS s.format = true → s.resource_type = "media" →
        (runOps ops s c).1.resource_type = "media")
    ∧ (∀ (w : World) d f c s, MediaMessage.init none none (some d) (some f) = .ok s →
        (get_url w s c).result = .ok ("data:media/" ++ f ++ ";base64," ++ b64encode d)) := by
  refine ⟨?_, ?_, ?_⟩
  · intro url path data format s h
    unfold MediaMessage.init at h
    split at h
    · have h2 := Except.ok.inj h; subst h2; rfl
    · split at h
      · have h2 := Except.ok.inj h; subst h2; rfl
      · split at h
        · have h2 := Except.ok.inj h; subst h2; rfl
        · simp at h
  · intro ops s c hf hm
    exact (runOps_preserves ops s c hf).trans hm
  · intro w d f c s h
    cases hd : truthyB (some d) && truthyS (some f) <;>
      simp [MediaMessage.init, truthyS_none, hd] at h
    subst h
    simp only [Bool.and_eq_true] at hd
    simp [get_url, dataUrl, pyStr, truthyS_none, hd.1]

/-- C9 witness: the three parts at concrete instances — a URL-constructed
state, a resolution call on the bytes-constructed state with format "png",
and its synthesized `data:media/...` URL. -/
theorem c9_resource_type_stays_media_witness :
    sUrl.resource_type = "media"
    ∧ (runOps [MediaOp.opData w0] sBytes ⟨0, 0, 0⟩).1.resource_type = "media"
    ∧ (get_url w0 sBytes ⟨0, 0, 0⟩).result =
        .ok ("data:media/" ++ "png" ++ ";base64," ++ b64encode [1]) :=
  ⟨c9_resource_type_stays_media.1 (some "http://example/i.png") none none none sUrl rfl,
   c9_resource_type_stays_media.2.1 [MediaOp.opData w0] sBytes ⟨0, 0, 0⟩ (by decide) rfl,
   c9_resource_type_stays_media.2.2 w0 [1] "png" ⟨0, 0, 0⟩ sBytes rfl⟩

/-- C10: an empty byte string is treated as absent: construction with
`data = b""` plus any format (and no url/path) raises the construction
error; and for any state whose cached bytes are empty, each of the three
getters returns the same result with the same I/O counters as if `data`
were `None` (it derives from another representation or fails). -/
theorem c10_empty_bytes_absent :
    (∀ format, MediaMessage.init none none (some []) format =
        .error "Must provide either url, path, or data + format.")
    ∧ (∀ (w : World) s c, s.data = some [] →
        ((get_data w s c).result = (get_data w { s with data := none } c).result
          ∧ (get_data w s c).counts = (get_data w { s with data := none } c).counts)
        ∧ ((get_path w s c).result = (get_path w { s with data := none } c).result
          ∧ (get_path w s c).counts = (get_path w { s with data := none } c).counts)
        ∧ ((get_url w s c).result = (get_url w { s with data := none } c).result
          ∧ (get_url w s c).counts = (get_url w { s with data := none } c).counts)) := by
  constructor
  · intro format; rfl
  · intro w s c h
    rcases s with ⟨u, p, d, f, rt⟩
    simp only at h
    subst h
    cases hp : truthyS p <;> cases hu : truthyS u <;>
      simp [get_data, get_path, get_url, loadDataFromPath, loadDataFromUrl,
        truthyB, truthyS_none, truthyB_none, hp, hu]

/-- C10 witness: the getter part at a concrete state holding a path and
empty cached bytes. -/
theorem c10_empty_bytes_absent_witness :
    (get_data w0 sEmptyBytes ⟨0, 0, 0⟩).result =
        (get_data w0 { sEmptyBytes with data := none } ⟨0, 0, 0⟩).result
      ∧ (get_data w0 sEmptyBytes ⟨0, 0, 0⟩).counts =
        (get_data w0 { sEmptyBytes with data := none } ⟨0, 0, 0⟩).counts :=
  (c10_empty_bytes_absent.2 w0 sEmptyBytes ⟨0, 0, 0⟩ rfl).1

/-- C2 counterexample: for a resource constructed from bytes + format, the
full `get_data`; `get_path`; `get_url` sequence performs zero fetches and
zero reads — the claimed "the underlying fetch/read happens exactly once in
total" fails. -/
theorem c2_bytes_zero_fetches :
    (runSeq w0 sBytes).counts.fetches + (runSeq w0 sBytes).counts.reads ≠ 1 := by decide

/-- C2 (amended): provided network fetches and file reads yield nonempty
bytes and temp-file names are nonempty, for every resource constructed with
exactly one representation, after `get_data()`, `get_path()`, `get_url()`
have each run once, a second call to any of the three returns the identical
cached value and leaves the state and the I/O counters unchanged (hence no
further fetch or read), and the underlying fetch/read happened at most once
in total (zero for a bytes-constructed resource). -/
theorem c2_second_calls_cached (w : World) (url path : Option String)
    (data : Option (List Nat)) (format : Option String) (s0 : MediaState)
    (hfetch : ∀ u, w.fetch u ≠ []) (hread : ∀ p, w.readFile p ≠ [])
    (htemp : ∀ n, w.tempName n ≠ "")
    (hone : exactlyOneRep url path data format)
    (hinit : MediaMessage.init url path data format = .ok s0) :
    (get_data w (runSeq w s0).state (runSeq w s0).counts).result = (runSeq w s0).r1
    ∧ (get_data w (runSeq w s0).state (runSeq w s0).counts).state = (runSeq w s0).state
    ∧ (get_data w (runSeq w s0).state (runSeq w s0).counts).counts = (runSeq w s0).counts
    ∧ (get_path w (runSeq w s0).state (runSeq w s0).counts).result = (runSeq w s0).r2
    ∧ (get_path w (runSeq w s0).state (runSeq w s0).counts).state = (runSeq w s0).state
    ∧ (get_path w (runSeq w s0).state (runSeq w s0).counts).counts = (runSeq w s0).counts
    ∧ (get_url w (runSeq w s0).state (runSeq w s0).counts).result = (runSeq w s0).r3
    ∧ (get_url w (runSeq w s0).state (runSeq w s0).counts).state = (runSeq w s0).state
    ∧ (get_url w (runSeq w s0).state (runSeq w s0).counts).counts = (runSeq w s0).counts
    ∧ (runSeq w s0).counts.fetches + (runSeq w s0).counts.reads ≤ 1 := by
  rcases hone with ⟨hu, hp, hd⟩ | ⟨hu, hp, hd⟩ | ⟨hu, hp, hd, hf⟩
  · unfold MediaMessage.init at hinit
    rw [if_pos hu] at hinit
    have hs0 := Except.ok.inj hinit
    subst hs0
    simp [runSeq, get_data, get_path, get_url, loadDataFromUrl, loadDataFromPath,
      detectFormat_url, detectFormat_path, detectFormat_data, truthyS_none, truthyB_none,
      hu, truthyB_some_of_ne, truthyS_some_of_ne, hfetch, hread, htemp]
  · unfold MediaMessage.init at hinit
    rw [if_neg (by simp [hu]), if_pos hp] at hinit
    have hs0 := Except.ok.inj hinit
    subst hs0
    simp [runSeq, get_data, get_path, get_url, loadDataFromUrl, loadDataFromPath,
      detectFormat_url, detectFormat_path, detectFormat_data, truthyS_none, truthyB_none,
      hu, hp, truthyB_some_of_ne, truthyS_some_of_ne, hfetch, hread, htemp]
  · unfold MediaMessage.init at hinit
    rw [if_neg (by simp [hu]), if_neg (by simp [hp]), if_pos (by simp [hd, hf])] at hinit
    have hs0 := Except.ok.inj hinit
    subst hs0
    simp [runSeq, get_data, get_path, get_url, loadDataFromUrl, loadDataFromPath,
      detectFormat_url, detectFormat_path, detectFormat_data, truthyS_none, truthyB_none,
      hd, truthyB_some_of_ne, truthyS_some_of_ne, hfetch, hread, htemp]

/-- C2 witness: the amended statement at a concrete URL-constructed
resource and a concrete world with nonempty fetch/read results. -/
theorem c2_second_calls_cached_witness :
    (get_data w0 (runSeq w0 sUrl).state (runSeq w0 sUrl).counts).result = (runSeq w0 sUrl).r1
    ∧ (runSeq w0 sUrl).counts.fetches + (runSeq w0 sUrl).counts.reads ≤ 1 :=
  ⟨(c2_second_calls_cached w0 (some "http://example/i.png") none none none sUrl
      (fun u => by simp [w0]) (fun p => by simp [w0]) (fun n => by simp [w0])
      (Or.inl (by decide)) rfl).1,
   (c2_second_calls_cached w0 (some "http://example/i.png") none none none sUrl
      (fun u => by simp [w0]) (fun p => by simp [w0]) (fun n => by simp [w0])
      (Or.inl (by decide)) rfl).2.2.2.2.2.2.2.2.2⟩

/-- C7 counterexample: with a platform where photo uploads fail, sending
`[Text "a", Image(...), Text "b"]` delivers the first text, fails on the
image, and never sends the final text — refuting "the remaining elements of
the same message are still sent". -/
theorem c7_failed_element_skips_rest :
    (send_message tgw0 msgFail sender0).2 = false
    ∧ BotCall.sendText "c1" "b" ∉ (send_message tgw0 msgFail sender0).1
    ∧ BotCall.sendText "c1" "a" ∈ (send_message tgw0 msgFail sender0).1 := by decide

/-- C7 (amended): a per-element send failure aborts the iteration: once the
loop has failed on some element, appending further elements to the message
changes nothing — they are never sent. -/
theorem c7_send_abort_on_failure (w : TgWorld) (cid : String) :
    ∀ elems more, (sendLoop w cid elems).2 = false →
      sendLoop w cid (elems ++ more) = sendLoop w cid elems := by
  intro elems
  induction elems with
  | nil => intro more h; simp [sendLoop] at h
  | cons e rest ih =>
      intro more h
      cases hr : (runCalls w (elementCalls w cid e)).2
      · simp only [List.cons_append, sendLoop, hr, Bool.false_eq_true, if_false]
      · simp only [sendLoop, hr, if_true] at h
        simp only [List.cons_append, sendLoop, hr, if_true, List.append_eq]
        rw [ih more h]

/-- C7 witness: the amended statement at a concrete message whose head
element is an image that the platform fails to upload. -/
theorem c7_send_abort_on_failure_witness :
    sendLoop tgw0 "c1" ([MessageElement.image sUrl] ++ [MessageElement.text "b"]) =
      sendLoop tgw0 "c1" [MessageElement.image sUrl] :=
  c7_send_abort_on_failure tgw0 "c1" [MessageElement.image sUrl] [MessageElement.text "b"]
    (by decide)
